import Mathlib

/-!
# Verification of the `pscoverdl` download orchestration engine

Shallow embedding of `src/pscoverdl.py` (the `BaseCoverDownloader` class and the
`download_covers` entry point).  Pure parts of the Python code become Lean
functions; the network is an explicit oracle `String → Option FetchResponse`
(`none` models a transport-level `requests.exceptions.RequestException`); file
contents read from disk are passed in as values.
-/

set_option autoImplicit false

namespace Pscoverdl

/-! ## Repository root constants (lines 11-23 of `pscoverdl.py`) -/

def PS1_COVERS_URL_DEFAULT : String :=
  "https://raw.githubusercontent.com/xlenore/psx-covers/main/covers/default"

def PS1_COVERS_URL_3D : String :=
  "https://raw.githubusercontent.com/xlenore/psx-covers/main/covers/3d"

def PS2_COVERS_URL_DEFAULT : String :=
  "https://raw.githubusercontent.com/xlenore/ps2-covers/main/covers/default"

def PS2_COVERS_URL_3D : String :=
  "https://raw.githubusercontent.com/xlenore/ps2-covers/main/covers/3d"

/-! ## Network model -/

/-- The observable part of an HTTP response: `status_code` and the raw body
bytes (`response.content`). -/
structure FetchResponse where
  status : Nat
  content : List Nat
  deriving DecidableEq, Repr

/-- Python `url.replace("https://", "http://")` specialised to the fixed
pattern: a left-to-right non-overlapping scan replacing every occurrence of
`https://` by `http://`, exactly as `str.replace` does. -/
def httpDowngradeL : List Char → List Char
  | [] => []
  | 'h' :: 't' :: 't' :: 'p' :: 's' :: ':' :: '/' :: '/' :: rest =>
      'h' :: 't' :: 't' :: 'p' :: ':' :: '/' :: '/' :: httpDowngradeL rest
  | c :: rest => c :: httpDowngradeL rest

/-- The URL actually passed to `requests.get` (lines 69-71): when `use_ssl`
is false the scheme is downgraded, otherwise the URL is used as is. -/
def effectiveUrl (use_ssl : Bool) (url : String) : String :=
  if use_ssl then url else String.mk (httpDowngradeL url.data)

/-- Embeds `BaseCoverDownloader.download_cover` (lines 67-78).  Returns the boolean
result together with the file write performed, if any: on HTTP 200 the body is
written verbatim to `cover_path` and the attempt returns `true`; any other
status, or a raised `RequestException` (`network _ = none`), returns `false`
with no write and no retry. -/
def download_cover (use_ssl : Bool) (network : String → Option FetchResponse)
    (url : String) (cover_path : String) : Bool × Option (String × List Nat) :=
  match network (effectiveUrl use_ssl url) with
  | some response =>
      if response.status = 200 then (true, some (cover_path, response.content))
      else (false, none)
  | none => (false, none)

/-! ## Serial extraction (`get_serial_list`, lines 35-55) -/

/-- ASCII fragment of Python's regex class `\w`: letters, digits and the
underscore. -/
def isWordChar (c : Char) : Bool :=
  c.isAlphanum || c == '_'

/-- One attempt of the regex engine to match `\w{4}-\d{5}` at the head of the
character list; on success returns the ten matched characters and the
remainder of the input after the match. -/
def matchSerialAt : List Char → Option (List Char × List Char)
  | a :: b :: c :: d :: '-' :: e1 :: e2 :: e3 :: e4 :: e5 :: rest =>
      if isWordChar a && isWordChar b && isWordChar c && isWordChar d &&
          e1.isDigit && e2.isDigit && e3.isDigit && e4.isDigit && e5.isDigit then
        some ([a, b, c, d, '-', e1, e2, e3, e4, e5], rest)
      else none
  | _ => none

/-- The scan of `re.findall(r"(\w{4}-\d{5})", text)`: leftmost, non-overlapping
matches collected in order.  `fuel` (instantiated with the input length, which
bounds the number of steps) makes the recursion structural. -/
def findSerialsAux : Nat → List Char → List (List Char)
  | 0, _ => []
  | _ + 1, [] => []
  | fuel + 1, c :: rest =>
      match matchSerialAt (c :: rest) with
      | some (m, rest2) => m :: findSerialsAux fuel rest2
      | none => findSerialsAux fuel rest

/-- All matches of the serial pattern in a string, in order of occurrence. -/
def extractSerials (text : String) : List String :=
  (findSerialsAux text.data.length text.data).map (fun l => String.mk l)

/-- Lines 41-42: the regex matches, made unique (`list(set(regex))`). -/
def catalogSerials (cacheContent : Option String) : List String :=
  match cacheContent with
  | none => []
  | some text => (extractSerials text).dedup

/-- Embeds `BaseCoverDownloader.get_serial_list` (lines 35-55): a missing
`gamelist.cache` file (`cacheContent = none`) yields the empty list; otherwise
the deduplicated regex matches with already-downloaded covers removed. -/
def get_serial_list (cacheContent : Option String) (existing_covers : List String) :
    List String :=
  (catalogSerials cacheContent).filter (fun s => !(decide (s ∈ existing_covers)))

/-! ## Name resolution (`serial_to_name` / `get_name_list`) -/

/-- Models both `get_name_list` implementations (`PCSX2CoverDownloader`, lines
187-203, and `DuckStationCoverDownloader`, lines 210-224): when the reference
dataset file is missing the method prints an error and returns the empty
mapping `{}`; otherwise it returns the parsed serial-to-name mapping, which the
embedding takes as given (`some m`), the YAML/JSON parsing being external
library code. -/
def get_name_list (dataset : Option (List (String × String))) : List (String × String) :=
  match dataset with
  | none => []
  | some m => m

/-- Embeds `BaseCoverDownloader.serial_to_name` (lines 64-65): Python `dict.get`,
returning `None` (`none`) when the serial is absent. -/
def serial_to_name (name_list : List (String × String)) (game_serial : String) :
    Option String :=
  name_list.lookup game_serial

/-! ## One pool pass (lines 119-141 and 156-177)

The `ThreadPoolExecutor` submits one `download_cover` task per URL and the
result loop consumes them in submission order; the embedding records, in that
order, which serials succeeded, which failed, and which effective URLs were
requested.  (`Path(url).stem` recovers the serial because serials consist of
word characters and a hyphen, never `/` or `.`; the embedding therefore carries
the serial alongside the URL.) -/

structure WorkItem where
  serial : String
  url : String
  path : String
  deriving DecidableEq, Repr

structure PassResult where
  success : List String
  failed : List String
  requests : List String
  deriving DecidableEq, Repr, Inhabited

def runPass (use_ssl : Bool) (network : String → Option FetchResponse) :
    List WorkItem → PassResult
  | [] => ⟨[], [], []⟩
  | it :: rest =>
      let tail := runPass use_ssl network rest
      if (download_cover use_ssl network it.url it.path).fst then
        ⟨it.serial :: tail.success, tail.failed, effectiveUrl use_ssl it.url :: tail.requests⟩
      else
        ⟨tail.success, it.serial :: tail.failed, effectiveUrl use_ssl it.url :: tail.requests⟩

/-! ## The orchestrator (`BaseCoverDownloader.download`, lines 80-180) -/

/-- Emulator dispatch (lines 88-96): the two recognized targets select the
pair (default root, 3d root); anything else is the invalid-emulator error. -/
def rootsFor (emulator : String) : Option (String × String) :=
  if emulator = "pcsx2" then some (PS2_COVERS_URL_DEFAULT, PS2_COVERS_URL_3D)
  else if emulator = "duckstation" then some (PS1_COVERS_URL_DEFAULT, PS1_COVERS_URL_3D)
  else none

structure DownloadResult where
  /-- Serials actually fetched in the primary pass (the work list after the
  defensive re-filter of lines 102-113). -/
  workList : List String
  /-- The `cover_urls` list (lines 102-113). -/
  coverUrls : List String
  primary : PassResult
  /-- Whether the `if failed and self.fallback` branch (line 143) ran. -/
  fallbackRan : Bool
  /-- The serials the fallback pass attempts (the `failed` list of line 126). -/
  fallbackSerials : List String
  /-- The `fallback_urls` list (lines 151-154). -/
  fallbackUrls : List String
  fallbackPass : PassResult
  /-- Serials reported `not found. Skipping...` (lines 173-177 and 178-180). -/
  permanentFailures : List String
  deriving DecidableEq, Repr, Inhabited

inductive DownloadOutcome where
  /-- Line 95-96: `[ERROR]: Invalid emulator`, method returns. -/
  | invalidEmulator
  /-- A `cover_type` outside `{0, 1}` with a non-empty serial list: the local
  variable `cover_urls` was never bound and line 122 raises `NameError` before
  any task is submitted. -/
  | unboundCoverUrls
  /-- Line 115-117: `All covers have already been downloaded`, method returns. -/
  | nothingToDo
  | done (r : DownloadResult)
  deriving DecidableEq, Repr, Inhabited

structure DownloadRun where
  outcome : DownloadOutcome
  /-- Every effective URL passed to `requests.get` over the whole run, in
  submission order. -/
  requests : List String
  deriving DecidableEq, Repr

/-- Lines 98-100 and 102-113: the primary root is the 3d one exactly when
`cover_type == 1`, the default one otherwise, and the extension is `.png` for
the 3D style, `.jpg` otherwise. -/
def primaryRoot (covers_url_default covers_url_3d : String) (cover_type : Int) : String :=
  if cover_type = 1 then covers_url_3d else covers_url_default

def primaryExt (cover_type : Int) : String :=
  if cover_type = 1 then ".png" else ".jpg"

/-- Lines 144-149: the fallback swaps root and extension to the other style. -/
def fallbackRoot (covers_url_default covers_url_3d : String) (cover_type : Int) : String :=
  if cover_type = 1 then covers_url_default else covers_url_3d

def fallbackExt (cover_type : Int) : String :=
  if cover_type = 1 then ".jpg" else ".png"

/-- The defensive re-filter of lines 102-113 (`if game_serial not in
existing_covers`), applied on top of the already-filtered `serial_list`. -/
def primaryWork (serial_list existing_covers : List String) : List String :=
  serial_list.filter (fun s => !(decide (s ∈ existing_covers)))

/-- The primary work items: lines 102-113 build the URL
`{covers_url}/{game_serial}.{ext}` and line 123 derives the target file name
from it. -/
def primaryItems (covers_url_default covers_url_3d : String) (cover_type : Int)
    (work : List String) : List WorkItem :=
  work.map (fun s => WorkItem.mk s
    (primaryRoot covers_url_default covers_url_3d cover_type ++ "/" ++ s ++ primaryExt cover_type)
    (s ++ primaryExt cover_type))

/-- The fallback work items of lines 151-154 and 159. -/
def fallbackItems (covers_url_default covers_url_3d : String) (cover_type : Int)
    (failed : List String) : List WorkItem :=
  failed.map (fun s => WorkItem.mk s
    (fallbackRoot covers_url_default covers_url_3d cover_type ++ "/" ++ s ++ fallbackExt cover_type)
    (s ++ fallbackExt cover_type))

/-- The run's final state when line 143's condition is false: the fallback
pool never starts and every primary failure is reported
`not found. Skipping...` (lines 178-180). -/
def resultNoFallback (covers_url_default covers_url_3d : String) (cover_type : Int)
    (use_ssl : Bool) (serial_list existing_covers : List String)
    (network : String → Option FetchResponse) : DownloadResult :=
  let work := primaryWork serial_list existing_covers
  let items := primaryItems covers_url_default covers_url_3d cover_type work
  let primary := runPass use_ssl network items
  ⟨work, items.map WorkItem.url, primary, false, [], [], ⟨[], [], []⟩, primary.failed⟩

/-- The run's final state when line 143's condition holds: the fallback pool
re-attempts every failed serial against the other style's root/extension, and
the serials failing again are reported `not found. Skipping...`
(lines 173-177). -/
def resultWithFallback (covers_url_default covers_url_3d : String) (cover_type : Int)
    (use_ssl : Bool) (serial_list existing_covers : List String)
    (network : String → Option FetchResponse) : DownloadResult :=
  let work := primaryWork serial_list existing_covers
  let items := primaryItems covers_url_default covers_url_3d cover_type work
  let primary := runPass use_ssl network items
  let fbItems := fallbackItems covers_url_default covers_url_3d cover_type primary.failed
  let fbPass := runPass use_ssl network fbItems
  ⟨work, items.map WorkItem.url, primary, true, primary.failed,
    fbItems.map WorkItem.url, fbPass, fbPass.failed⟩

/-- Lines 98-177 of `download`, after emulator dispatch succeeded and
`serial_list` was found non-empty, for `cover_type ∈ {0, 1}`: build
`cover_urls` (with the defensive `not in existing_covers` re-filter), run the
primary pool pass, then either the fallback pass (line 143: only when some
item failed and fallback is enabled) or report every failure as a permanent
skip (lines 178-180). -/
def mainPass (covers_url_default covers_url_3d : String) (cover_type : Int)
    (use_ssl fallback : Bool) (serial_list existing_covers : List String)
    (network : String → Option FetchResponse) : DownloadRun :=
  let primary := runPass use_ssl network
    (primaryItems covers_url_default covers_url_3d cover_type
      (primaryWork serial_list existing_covers))
  if !primary.failed.isEmpty && fallback then
    let r := resultWithFallback covers_url_default covers_url_3d cover_type use_ssl
      serial_list existing_covers network
    ⟨.done r, r.primary.requests ++ r.fallbackPass.requests⟩
  else
    let r := resultNoFallback covers_url_default covers_url_3d cover_type use_ssl
      serial_list existing_covers network
    ⟨.done r, r.primary.requests⟩

/-- Embeds `BaseCoverDownloader.download` (lines 80-180).  Unrecognized emulator
returns at line 96 before any fetch; an empty `serial_list` returns at line
117 ("nothing to do") before any fetch; `cover_type` outside `{0, 1}` with
work remaining raises `NameError` at line 122 before any task is submitted
(the `cover_urls` comprehensions of lines 102-113 are side-effect free, so
checking `serial_list` first is observationally identical to the source
order). -/
def download (emulator : String) (cover_type : Int) (use_ssl fallback : Bool)
    (cacheContent : Option String) (existing_covers : List String)
    (network : String → Option FetchResponse) : DownloadRun :=
  let serial_list := get_serial_list cacheContent existing_covers
  match rootsFor emulator with
  | none => ⟨.invalidEmulator, []⟩
  | some (covers_url_default, covers_url_3d) =>
      if serial_list.isEmpty then ⟨.nothingToDo, []⟩
      else if cover_type = 0 ∨ cover_type = 1 then
        mainPass covers_url_default covers_url_3d cover_type use_ssl fallback
          serial_list existing_covers network
      else ⟨.unboundCoverUrls, []⟩

/-! ## Spec-side definitions (for refinement comparison) -/

/-- Defined from the spec's words: the candidate URL
`{repository_root}/{serial}.{ext}` where the root comes from the fixed table
of four roots indexed by (Emulator Target × Cover Style) and the extension is
`jpg` for the flat style (`cover_type ≠ 1`) and `png` for the 3D style
(`cover_type = 1`). -/
def specCandidateUrl (emulator : String) (cover_type : Int) (serial : String) : String :=
  let root :=
    if emulator = "pcsx2" then
      (if cover_type = 1 then PS2_COVERS_URL_3D else PS2_COVERS_URL_DEFAULT)
    else
      (if cover_type = 1 then PS1_COVERS_URL_3D else PS1_COVERS_URL_DEFAULT)
  let ext := if cover_type = 1 then ".png" else ".jpg"
  root ++ "/" ++ serial ++ ext

/-- Defined from the spec's words: four LETTERS, a hyphen, five digits
(the claimed Serial pattern of C7). -/
def isSpecSerial (s : String) : Bool :=
  match s.data with
  | [a, b, c, d, h, e1, e2, e3, e4, e5] =>
      a.isAlpha && b.isAlpha && c.isAlpha && d.isAlpha && h == '-' &&
      e1.isDigit && e2.isDigit && e3.isDigit && e4.isDigit && e5.isDigit
  | _ => false

/-- The shape the code's regex `\w{4}-\d{5}` actually enforces: four word
characters, a hyphen, five digits. -/
def isCodeSerialL : List Char → Bool
  | [a, b, c, d, '-', e1, e2, e3, e4, e5] =>
      isWordChar a && isWordChar b && isWordChar c && isWordChar d &&
      e1.isDigit && e2.isDigit && e3.isDigit && e4.isDigit && e5.isDigit
  | _ => false

def isCodeSerial (s : String) : Bool := isCodeSerialL s.data

end Pscoverdl

namespace Pscoverdl

/-! ## Concrete network oracles and runs (test vectors) -/

/-- Oracle under which every GET raises a transport-level error. -/
def netNone : String → Option FetchResponse := fun _ => none

/-- Oracle under which every GET returns HTTP 200 with a one-byte body. -/
def net200 : String → Option FetchResponse := fun _ => some ⟨200, [1]⟩

/-- A run with one serial, flat style, fallback disabled, all fetches failing. -/
def run1 : DownloadRun :=
  download "pcsx2" 0 true false (some "ABCD-12345") [] netNone

def res1 : DownloadResult :=
  match run1.outcome with
  | .done r => r
  | _ => default

/-- A run with one serial, flat style, fallback enabled, all fetches failing. -/
def run2 : DownloadRun :=
  download "pcsx2" 0 true true (some "ABCD-12345") [] netNone

def res2 : DownloadResult :=
  match run2.outcome with
  | .done r => r
  | _ => default

/-- A run with two catalog serials one of which is already covered, 3D style,
everything succeeding. -/
def run3 : DownloadRun :=
  download "duckstation" 1 true false (some "ABCD-12345 EFGH-67890") ["ABCD-12345"] net200

def res3 : DownloadResult :=
  match run3.outcome with
  | .done r => r
  | _ => default

/-! ## Helper lemmas -/

theorem runPass_requests (use_ssl : Bool) (network : String → Option FetchResponse) :
    ∀ items : List WorkItem,
      (runPass use_ssl network items).requests =
        items.map (fun it => effectiveUrl use_ssl it.url) := by
  intro items
  induction items with
  | nil => rfl
  | cons it rest ih =>
      simp only [runPass, List.map_cons]
      split <;> simp [ih]

theorem runPass_failed_sub (use_ssl : Bool) (network : String → Option FetchResponse) :
    ∀ (items : List WorkItem) (s : String),
      s ∈ (runPass use_ssl network items).failed → s ∈ items.map WorkItem.serial := by
  intro items
  induction items with
  | nil => intro s hs; simp [runPass] at hs
  | cons it rest ih =>
      intro s hs
      simp only [runPass] at hs
      split at hs <;> simp only [List.map_cons, List.mem_cons] <;>
        first
          | exact Or.inr (ih s hs)
          | rcases List.mem_cons.mp hs with h | h
            · exact Or.inl h
            · exact Or.inr (ih s h)

theorem rootsFor_eq_some {em d t : String} (h : rootsFor em = some (d, t)) :
    (em = "pcsx2" ∧ d = PS2_COVERS_URL_DEFAULT ∧ t = PS2_COVERS_URL_3D) ∨
    (em = "duckstation" ∧ d = PS1_COVERS_URL_DEFAULT ∧ t = PS1_COVERS_URL_3D) := by
  unfold rootsFor at h
  split_ifs at h with h1 h2 <;> simp_all

theorem download_done {em : String} {ct : Int} {ssl fb : Bool} {cache : Option String}
    {ex : List String} {net : String → Option FetchResponse} {r : DownloadResult}
    (h : (download em ct ssl fb cache ex net).outcome = DownloadOutcome.done r) :
    ∃ d t, rootsFor em = some (d, t) ∧ get_serial_list cache ex ≠ [] ∧
      (ct = 0 ∨ ct = 1) ∧
      (mainPass d t ct ssl fb (get_serial_list cache ex) ex net).outcome =
        DownloadOutcome.done r := by
  cases hr : rootsFor em with
  | none => simp [download, hr] at h
  | some p =>
      obtain ⟨d, t⟩ := p
      simp only [download, hr] at h
      split at h
      · simp at h
      · split at h
        · refine ⟨d, t, rfl, ?_, ?_, h⟩
          · simp_all [List.isEmpty_iff]
          · assumption
        · simp at h

end Pscoverdl

namespace Pscoverdl

theorem mainPass_done_cases (d t : String) (ct : Int) (ssl fb : Bool)
    (sl ex : List String) (net : String → Option FetchResponse) (r : DownloadResult)
    (h : (mainPass d t ct ssl fb sl ex net).outcome = DownloadOutcome.done r) :
    ((runPass ssl net (primaryItems d t ct (primaryWork sl ex))).failed ≠ [] ∧ fb = true ∧
        r = resultWithFallback d t ct ssl sl ex net) ∨
    (((runPass ssl net (primaryItems d t ct (primaryWork sl ex))).failed = [] ∨ fb = false) ∧
        r = resultNoFallback d t ct ssl sl ex net) := by
  simp only [mainPass] at h
  split at h
  · next hcond =>
      rw [Bool.and_eq_true, Bool.not_eq_true', List.isEmpty_eq_false] at hcond
      simp only [DownloadRun.outcome] at h
      rw [DownloadOutcome.done.injEq] at h
      exact Or.inl ⟨hcond.1, hcond.2, h.symm⟩
  · next hcond =>
      rw [Bool.and_eq_true, Bool.not_eq_true', List.isEmpty_eq_false] at hcond
      push_neg at hcond
      simp only [DownloadRun.outcome] at h
      rw [DownloadOutcome.done.injEq] at h
      by_cases hf : (runPass ssl net (primaryItems d t ct (primaryWork sl ex))).failed = []
      · exact Or.inr ⟨Or.inl hf, h.symm⟩
      · refine Or.inr ⟨Or.inr ?_, h.symm⟩
        simpa using hcond hf

theorem resultNoFallback_fields (d t : String) (ct : Int) (ssl : Bool)
    (sl ex : List String) (net : String → Option FetchResponse) :
    (resultNoFallback d t ct ssl sl ex net).fallbackRan = false ∧
    (resultNoFallback d t ct ssl sl ex net).primary =
      runPass ssl net (primaryItems d t ct (primaryWork sl ex)) ∧
    (resultNoFallback d t ct ssl sl ex net).permanentFailures =
      (runPass ssl net (primaryItems d t ct (primaryWork sl ex))).failed ∧
    (resultNoFallback d t ct ssl sl ex net).fallbackPass = ⟨[], [], []⟩ ∧
    (resultNoFallback d t ct ssl sl ex net).fallbackUrls = [] ∧
    (resultNoFallback d t ct ssl sl ex net).fallbackSerials = [] ∧
    (resultNoFallback d t ct ssl sl ex net).workList = primaryWork sl ex ∧
    (resultNoFallback d t ct ssl sl ex net).coverUrls =
      (primaryItems d t ct (primaryWork sl ex)).map WorkItem.url :=
  ⟨rfl, rfl, rfl, rfl, rfl, rfl, rfl, rfl⟩

theorem resultWithFallback_fields (d t : String) (ct : Int) (ssl : Bool)
    (sl ex : List String) (net : String → Option FetchResponse) :
    (resultWithFallback d t ct ssl sl ex net).fallbackRan = true ∧
    (resultWithFallback d t ct ssl sl ex net).primary =
      runPass ssl net (primaryItems d t ct (primaryWork sl ex)) ∧
    (resultWithFallback d t ct ssl sl ex net).fallbackSerials =
      (runPass ssl net (primaryItems d t ct (primaryWork sl ex))).failed ∧
    (resultWithFallback d t ct ssl sl ex net).fallbackUrls =
      (fallbackItems d t ct
        (runPass ssl net (primaryItems d t ct (primaryWork sl ex))).failed).map WorkItem.url ∧
    (resultWithFallback d t ct ssl sl ex net).fallbackPass =
      runPass ssl net (fallbackItems d t ct
        (runPass ssl net (primaryItems d t ct (primaryWork sl ex))).failed) ∧
    (resultWithFallback d t ct ssl sl ex net).permanentFailures =
      (runPass ssl net (fallbackItems d t ct
        (runPass ssl net (primaryItems d t ct (primaryWork sl ex))).failed)).failed ∧
    (resultWithFallback d t ct ssl sl ex net).workList = primaryWork sl ex ∧
    (resultWithFallback d t ct ssl sl ex net).coverUrls =
      (primaryItems d t ct (primaryWork sl ex)).map WorkItem.url :=
  ⟨rfl, rfl, rfl, rfl, rfl, rfl, rfl, rfl⟩

end Pscoverdl

namespace Pscoverdl

/-! ## Claims -/

/-- C1: The Fallback Pass runs if and only if fallback is enabled in the
configuration AND the primary pass's Failure set is non-empty; in every other
case each primary Failure becomes a PermanentFailure directly (every failed
serial is reported `not found. Skipping...`), with no further network activity
for that serial (the fallback pass issues no request and builds no URL). -/
theorem claim_C1 (em : String) (ct : Int) (ssl fb : Bool) (cache : Option String)
    (ex : List String) (net : String → Option FetchResponse) (r : DownloadResult)
    (h : (download em ct ssl fb cache ex net).outcome = DownloadOutcome.done r) :
    (r.fallbackRan = true ↔ (fb = true ∧ r.primary.failed ≠ [])) ∧
    (r.fallbackRan = false →
      r.permanentFailures = r.primary.failed ∧ r.fallbackPass.requests = [] ∧
        r.fallbackUrls = []) := by
  obtain ⟨d, t, _, _, _, hm⟩ := download_done h
  rcases mainPass_done_cases d t ct ssl fb (get_serial_list cache ex) ex net r hm with
    ⟨hf, hfb, rfl⟩ | ⟨hc, rfl⟩
  · obtain ⟨hran, hprim, -⟩ := resultWithFallback_fields d t ct ssl
      (get_serial_list cache ex) ex net
    rw [hran, hprim]
    exact ⟨by simp [hfb, hf], by simp⟩
  · obtain ⟨hran, hprim, hperm, hpass, hurls, -⟩ := resultNoFallback_fields d t ct ssl
      (get_serial_list cache ex) ex net
    rw [hran, hprim, hperm, hpass, hurls]
    refine ⟨⟨fun hco => absurd hco (by decide), fun hco => ?_⟩, fun _ => ⟨rfl, rfl, rfl⟩⟩
    exfalso
    rcases hc with hc | hc
    · exact hco.2 hc
    · rw [hc] at hco; exact Bool.false_ne_true hco.1

/-- C1 witness: in `run1` (fallback disabled, the single fetch failing) no
fallback pass runs and the failed serial is a direct permanent failure. -/
theorem claim_C1_witness :
    (res1.fallbackRan = true ↔ (false = true ∧ res1.primary.failed ≠ [])) ∧
    (res1.fallbackRan = false →
      res1.permanentFailures = res1.primary.failed ∧ res1.fallbackPass.requests = [] ∧
        res1.fallbackUrls = []) :=
  claim_C1 "pcsx2" 0 true false (some "ABCD-12345") [] netNone res1 (by rfl)

/-- C6: an unrecognized Emulator Target makes the downloader report the
configuration error and abort with no network request issued. -/
theorem claim_C6 (em : String) (ct : Int) (ssl fb : Bool) (cache : Option String)
    (ex : List String) (net : String → Option FetchResponse)
    (h1 : em ≠ "pcsx2") (h2 : em ≠ "duckstation") :
    (download em ct ssl fb cache ex net).outcome = DownloadOutcome.invalidEmulator ∧
    (download em ct ssl fb cache ex net).requests = [] := by
  have hroots : rootsFor em = none := by
    unfold rootsFor
    rw [if_neg h1, if_neg h2]
  constructor <;> simp [download, hroots]

/-- C6 witness at the unrecognized target `epsxe`. -/
theorem claim_C6_witness :
    (download "epsxe" 0 true false (some "ABCD-12345") [] netNone).outcome =
      DownloadOutcome.invalidEmulator ∧
    (download "epsxe" 0 true false (some "ABCD-12345") [] netNone).requests = [] :=
  claim_C6 "epsxe" 0 true false (some "ABCD-12345") [] netNone
    (by decide) (by decide)

/-- C10: with a recognized Emulator Target, a non-empty work list and a
`cover_type` other than 0 or 1, the candidate-URL list is never bound and the
run faults (`NameError` on `cover_urls`) before any fetch is submitted. -/
theorem claim_C10 (em : String) (ct : Int) (ssl fb : Bool) (cache : Option String)
    (ex : List String) (net : String → Option FetchResponse)
    (hem : em = "pcsx2" ∨ em = "duckstation") (h0 : ct ≠ 0) (h1 : ct ≠ 1)
    (hne : get_serial_list cache ex ≠ []) :
    (download em ct ssl fb cache ex net).outcome = DownloadOutcome.unboundCoverUrls ∧
    (download em ct ssl fb cache ex net).requests = [] := by
  have hempty : (get_serial_list cache ex).isEmpty = false := by
    simpa [List.isEmpty_eq_false] using hne
  obtain rfl | rfl := hem <;>
    constructor <;>
      simp [download, rootsFor, hempty, h0, h1]

/-- C10 witness: `cover_type = 2` with a recognized target and one serial to
fetch faults before any request. -/
theorem claim_C10_witness :
    (download "pcsx2" 2 true false (some "ABCD-12345") [] netNone).outcome =
      DownloadOutcome.unboundCoverUrls ∧
    (download "pcsx2" 2 true false (some "ABCD-12345") [] netNone).requests = [] :=
  claim_C10 "pcsx2" 2 true false (some "ABCD-12345") [] netNone
    (Or.inl rfl) (by decide) (by decide) (by decide)

end Pscoverdl

namespace Pscoverdl

theorem effectiveUrl_true (u : String) : effectiveUrl true u = u := rfl

theorem primaryUrl_eq_spec {em d t : String} (hr : rootsFor em = some (d, t))
    (ct : Int) (s : String) :
    primaryRoot d t ct ++ "/" ++ s ++ primaryExt ct = specCandidateUrl em ct s := by
  rcases rootsFor_eq_some hr with ⟨rfl, rfl, rfl⟩ | ⟨rfl, rfl, rfl⟩ <;>
    by_cases hct : ct = 1 <;>
      simp [primaryRoot, primaryExt, specCandidateUrl, hct]

theorem fallbackUrl_eq_spec {em d t : String} (hr : rootsFor em = some (d, t))
    {ct : Int} (hct : ct = 0 ∨ ct = 1) (s : String) :
    fallbackRoot d t ct ++ "/" ++ s ++ fallbackExt ct = specCandidateUrl em (1 - ct) s := by
  rcases rootsFor_eq_some hr with ⟨rfl, rfl, rfl⟩ | ⟨rfl, rfl, rfl⟩ <;>
    rcases hct with rfl | rfl <;>
      simp [fallbackRoot, fallbackExt, specCandidateUrl]

theorem primaryItems_serials (d t : String) (ct : Int) (work : List String) :
    (primaryItems d t ct work).map WorkItem.serial = work := by
  simp [primaryItems, List.map_map, Function.comp_def]

theorem primaryItems_urls {em d t : String} (hr : rootsFor em = some (d, t))
    (ct : Int) (work : List String) :
    (primaryItems d t ct work).map WorkItem.url = work.map (specCandidateUrl em ct) := by
  simp only [primaryItems, List.map_map, Function.comp_def]
  exact List.map_congr_left (fun s _ => primaryUrl_eq_spec hr ct s)

theorem fallbackItems_urls {em d t : String} (hr : rootsFor em = some (d, t))
    {ct : Int} (hct : ct = 0 ∨ ct = 1) (failed : List String) :
    (fallbackItems d t ct failed).map WorkItem.url =
      failed.map (specCandidateUrl em (1 - ct)) := by
  simp only [fallbackItems, List.map_map, Function.comp_def]
  exact List.map_congr_left (fun s _ => fallbackUrl_eq_spec hr hct s)

theorem runPass_requests_eq_urls (ssl : Bool) (net : String → Option FetchResponse)
    (items : List WorkItem) :
    (runPass ssl net items).requests = (items.map WorkItem.url).map (effectiveUrl ssl) := by
  rw [runPass_requests, List.map_map]
  rfl

end Pscoverdl

namespace Pscoverdl

/-- C2: URL derivation is a pure, deterministic function of
(Serial, Cover Style, Emulator Target, transport flag): every candidate URL is
`{repository_root}/{serial}.{ext}` with the root drawn from the fixed
four-entry table indexed by (Emulator Target × Cover Style) and the extension
`jpg` for the flat style, `png` for the 3D style; the URL actually requested
is the candidate URL, downgraded from `https` to `http` exactly when the
transport flag requests unencrypted transport. -/
theorem claim_C2 (em : String) (ct : Int) (ssl fb : Bool) (cache : Option String)
    (ex : List String) (net : String → Option FetchResponse) (r : DownloadResult)
    (h : (download em ct ssl fb cache ex net).outcome = DownloadOutcome.done r) :
    r.coverUrls = r.workList.map (specCandidateUrl em ct) ∧
    r.primary.requests = r.coverUrls.map (effectiveUrl ssl) ∧
    (ssl = true → r.primary.requests = r.coverUrls) := by
  obtain ⟨d, t, hr, -, -, hm⟩ := download_done h
  have hmain :
      r.workList = primaryWork (get_serial_list cache ex) ex ∧
      r.coverUrls =
        (primaryItems d t ct (primaryWork (get_serial_list cache ex) ex)).map WorkItem.url ∧
      r.primary = runPass ssl net
        (primaryItems d t ct (primaryWork (get_serial_list cache ex) ex)) := by
    rcases mainPass_done_cases d t ct ssl fb (get_serial_list cache ex) ex net r hm with
      ⟨-, -, rfl⟩ | ⟨-, rfl⟩
    · exact ⟨rfl, rfl, rfl⟩
    · exact ⟨rfl, rfl, rfl⟩
  obtain ⟨hw, hc, hp⟩ := hmain
  refine ⟨?_, ?_, ?_⟩
  · rw [hw, hc, primaryItems_urls hr]
  · rw [hp, hc, runPass_requests_eq_urls]
  · intro hssl
    subst hssl
    rw [hp, hc, runPass_requests_eq_urls]
    simp [effectiveUrl_true]

/-- C2 witness: in `run1` the single candidate URL follows the spec table and,
with encrypted transport, is requested unchanged. -/
theorem claim_C2_witness :
    res1.coverUrls = res1.workList.map (specCandidateUrl "pcsx2" 0) ∧
    res1.primary.requests = res1.coverUrls :=
  ⟨(claim_C2 "pcsx2" 0 true false (some "ABCD-12345") [] netNone res1 (by rfl)).1,
   (claim_C2 "pcsx2" 0 true false (some "ABCD-12345") [] netNone res1 (by rfl)).2.2 rfl⟩

/-- C3: serials already in the Existing-Cover Set are never fetched: the work
list is exactly the catalog serials outside the Existing-Cover Set (the
exclusion being re-applied when URLs are built), and both the primary failures
and the fallback serials stay inside the work list. -/
theorem claim_C3 (em : String) (ct : Int) (ssl fb : Bool) (cache : Option String)
    (ex : List String) (net : String → Option FetchResponse) (r : DownloadResult)
    (h : (download em ct ssl fb cache ex net).outcome = DownloadOutcome.done r) :
    r.workList = (catalogSerials cache).filter (fun s => !(decide (s ∈ ex))) ∧
    (∀ s ∈ ex, s ∉ r.workList) ∧
    (∀ s ∈ r.primary.failed, s ∈ r.workList) ∧
    (∀ s ∈ r.fallbackSerials, s ∈ r.workList) := by
  obtain ⟨d, t, hr, -, -, hm⟩ := download_done h
  have hmain :
      r.workList = primaryWork (get_serial_list cache ex) ex ∧
      r.primary = runPass ssl net
        (primaryItems d t ct (primaryWork (get_serial_list cache ex) ex)) ∧
      (r.fallbackSerials = r.primary.failed ∨ r.fallbackSerials = []) := by
    rcases mainPass_done_cases d t ct ssl fb (get_serial_list cache ex) ex net r hm with
      ⟨-, -, rfl⟩ | ⟨-, rfl⟩
    · exact ⟨rfl, rfl, Or.inl rfl⟩
    · exact ⟨rfl, rfl, Or.inr rfl⟩
  obtain ⟨hw, hp, hfs⟩ := hmain
  have hwork : r.workList = (catalogSerials cache).filter (fun s => !(decide (s ∈ ex))) := by
    rw [hw]
    unfold primaryWork get_serial_list
    rw [List.filter_filter]
    simp
  have hfail : ∀ s ∈ r.primary.failed, s ∈ r.workList := by
    intro s hs
    rw [hp] at hs
    have := runPass_failed_sub ssl net _ s hs
    rwa [primaryItems_serials, ← hw] at this
  refine ⟨hwork, ?_, hfail, ?_⟩
  · intro s hs hmem
    rw [hwork, List.mem_filter] at hmem
    have := hmem.2
    simp at this
    exact this hs
  · intro s hs
    rcases hfs with hfs | hfs
    · exact hfail s (hfs ▸ hs)
    · rw [hfs] at hs
      exact absurd hs (List.not_mem_nil s)

/-- C3 witness: in `run3` the already-covered serial `ABCD-12345` is excluded
from the work list, which is exactly the filtered catalog. -/
theorem claim_C3_witness :
    res3.workList =
      (catalogSerials (some "ABCD-12345 EFGH-67890")).filter
        (fun s => !(decide (s ∈ (["ABCD-12345"] : List String)))) ∧
    "ABCD-12345" ∉ res3.workList :=
  ⟨(claim_C3 "duckstation" 1 true false (some "ABCD-12345 EFGH-67890") ["ABCD-12345"]
      net200 res3 (by rfl)).1,
   (claim_C3 "duckstation" 1 true false (some "ABCD-12345 EFGH-67890") ["ABCD-12345"]
      net200 res3 (by rfl)).2.1 "ABCD-12345" (by decide)⟩

/-- C5: whenever the fallback pass runs, it targets, for every primary-failure
serial, the other Cover Style's repository root and extension: the fallback
URLs are exactly the spec-table candidate URLs for the opposite style
(`1 - cover_type`), i.e. the flat root with `.jpg` after a 3D primary pass and
the 3D root with `.png` after a flat primary pass. -/
theorem claim_C5 (em : String) (ct : Int) (ssl fb : Bool) (cache : Option String)
    (ex : List String) (net : String → Option FetchResponse) (r : DownloadResult)
    (h : (download em ct ssl fb cache ex net).outcome = DownloadOutcome.done r)
    (hran : r.fallbackRan = true) :
    r.fallbackSerials = r.primary.failed ∧
    r.fallbackUrls = r.primary.failed.map (specCandidateUrl em (1 - ct)) := by
  obtain ⟨d, t, hr, -, hct, hm⟩ := download_done h
  rcases mainPass_done_cases d t ct ssl fb (get_serial_list cache ex) ex net r hm with
    ⟨-, -, rfl⟩ | ⟨-, rfl⟩
  · refine ⟨rfl, ?_⟩
    have hurls : (resultWithFallback d t ct ssl (get_serial_list cache ex) ex net).fallbackUrls =
        (fallbackItems d t ct
          (runPass ssl net (primaryItems d t ct
            (primaryWork (get_serial_list cache ex) ex))).failed).map WorkItem.url := rfl
    rw [hurls, fallbackItems_urls hr hct]
    rfl
  · exact absurd hran (by simp [resultNoFallback])

/-- C5 witness: in `run2` (flat primary pass, fallback enabled, primary fetch
failing) the fallback URL for the failed serial uses the 3D root and `.png`. -/
theorem claim_C5_witness :
    res2.fallbackSerials = res2.primary.failed ∧
    res2.fallbackUrls = res2.primary.failed.map (specCandidateUrl "pcsx2" (1 - 0)) :=
  claim_C5 "pcsx2" 0 true true (some "ABCD-12345") [] netNone res2 (by rfl) (by rfl)

end Pscoverdl

namespace Pscoverdl

/-- C4: a single fetch attempt succeeds exactly when the GET on the effective
URL yields HTTP 200, in which case the response body is written verbatim to
the target path; any other status or transport error yields failure with no
write and no retry at this layer. -/
theorem claim_C4 (ssl : Bool) (net : String → Option FetchResponse)
    (url path : String) (b : List Nat) :
    ((download_cover ssl net url path).fst = true ↔
      ∃ resp, net (effectiveUrl ssl url) = some resp ∧ resp.status = 200) ∧
    ((download_cover ssl net url path).snd = some (path, b) ↔
      net (effectiveUrl ssl url) = some ⟨200, b⟩) ∧
    ((download_cover ssl net url path).fst = false →
      (download_cover ssl net url path).snd = none) := by
  cases hnet : net (effectiveUrl ssl url) with
  | none => simp [download_cover, hnet]
  | some resp =>
      obtain ⟨st, body⟩ := resp
      by_cases hst : st = 200 <;>
        simp [download_cover, hnet, hst, eq_comm]

/-- C4 witness: under the always-200 oracle, the attempt succeeds and writes
the body verbatim. -/
theorem claim_C4_witness :
    (download_cover true net200 "someurl" "somepath").snd = some ("somepath", [1]) :=
  (claim_C4 true net200 "someurl" "somepath" [1]).2.1.mpr rfl

theorem matchSerialAt_shape : ∀ {l m r : List Char},
    matchSerialAt l = some (m, r) → isCodeSerialL m = true := by
  intro l m r h
  unfold matchSerialAt at h
  split at h
  · split at h
    · next hcond =>
        rw [Option.some.injEq, Prod.mk.injEq] at h
        obtain ⟨hm, -⟩ := h
        subst hm
        simpa [isCodeSerialL] using hcond
    · exact absurd h (by simp)
  · exact absurd h (by simp)

theorem findSerialsAux_sound : ∀ (fuel : Nat) (l m : List Char),
    m ∈ findSerialsAux fuel l → isCodeSerialL m = true := by
  intro fuel
  induction fuel with
  | zero => intro l m h; simp [findSerialsAux] at h
  | succ n ih =>
      intro l m h
      cases l with
      | nil => simp [findSerialsAux] at h
      | cons c rest =>
          simp only [findSerialsAux] at h
          cases hm : matchSerialAt (c :: rest) with
          | none =>
              simp only [hm] at h
              exact ih rest m h
          | some p =>
              obtain ⟨m0, rest2⟩ := p
              simp only [hm] at h
              rcases List.mem_cons.mp h with rfl | h
              · exact matchSerialAt_shape hm
              · exact ih rest2 m h

/-- C7 counterexample: the claimed Serial pattern requires four LETTERS before
the hyphen, but the code's regex `\w{4}-\d{5}` also accepts digits there:
on a cache containing `1234-56789` that string enters the work set although it
does not match the claimed pattern. -/
theorem claim_C7_counterexample :
    "1234-56789" ∈ get_serial_list (some "1234-56789") [] ∧
    isSpecSerial "1234-56789" = false := by
  constructor
  · decide
  · decide

/-- C7 (amended): the Serial Catalog Reader extracts from the cache artifact
exactly the substrings matching the code's pattern — four word characters
(letter, digit or underscore) followed by a hyphen and five digits —
deduplicates them and removes already-covered serials; every string in the
returned set matches that pattern, and the set has no duplicates. -/
theorem claim_C7 (text : String) (ex : List String) :
    (∀ s ∈ get_serial_list (some text) ex, isCodeSerial s = true ∧ s ∉ ex) ∧
    (get_serial_list (some text) ex).Nodup := by
  constructor
  · intro s hs
    unfold get_serial_list at hs
    rw [List.mem_filter] at hs
    obtain ⟨hmem, hp⟩ := hs
    constructor
    · unfold catalogSerials at hmem
      rw [List.mem_dedup] at hmem
      unfold extractSerials at hmem
      rw [List.mem_map] at hmem
      obtain ⟨m, hm, rfl⟩ := hmem
      have := findSerialsAux_sound _ _ _ hm
      simpa [isCodeSerial] using this
    · simpa using hp
  · unfold get_serial_list catalogSerials
    exact (List.nodup_dedup _).filter _

/-- C7 witness: on a cache containing one well-formed serial, the extracted
serial matches the code pattern and was not excluded. -/
theorem claim_C7_witness :
    isCodeSerial "ABCD-12345" = true ∧ "ABCD-12345" ∉ ([] : List String) :=
  (claim_C7 "ABCD-12345" []).1 "ABCD-12345" (by decide)

/-- C8 counterexample: when the reference dataset is missing, a lookup returns
`none` (Python `None`, printed as `None` in the report line), not the string
"unknown" the claim promises. -/
theorem claim_C8_counterexample :
    serial_to_name (get_name_list none) "SCUS-94900" = none ∧
    serial_to_name (get_name_list none) "SCUS-94900" ≠ some "unknown" := by
  constructor
  · rfl
  · simp [serial_to_name, get_name_list]

/-- C8 (amended): when the reference dataset file is missing, the Name
Resolver yields the empty mapping and every subsequent serial-to-name lookup
returns the absent value `none` (Python `None`) rather than signalling an
error. -/
theorem claim_C8 (s : String) :
    get_name_list none = [] ∧ serial_to_name (get_name_list none) s = none :=
  ⟨rfl, rfl⟩

end Pscoverdl
